import Mathlib

/-!
Shallow embedding of the navari-mpesa-b2c connector core
(src/navari_mpesa_b2c/mpesa_b2c), covering:

* utils/helpers.py            : save_access_token, update_integration_request
* scripts/server/base_classes.py : ConnectorBaseClass (attach/notify), ErrorObserver
* scripts/server/mpesa_connector.py : MpesaB2CConnector.__init__, authenticate,
  make_b2c_payment_request, results_callback_url

External collaborators (the frappe persistence layer, the requests HTTP client,
the system clock) are modelled as explicit state and explicit inputs:

* `DB` is the persisted record store (Daraja Access Tokens, Integration Requests,
  and the error log written by `frappe.log_error`).
* `datetime.now()` is a stream of timestamps (`clock : List Timestamp`), one
  reading consumed per call, so that distinct calls may observe distinct times
  exactly as in the source (which calls `datetime.now()` twice in `authenticate`).
* HTTP responses are inputs (`AuthResponse`, `PostResponse`); the model records
  each invocation of the token endpoint (with the Basic-auth credentials used)
  in `auth_call_log`, which instruments the claim that authentication happens
  exactly once / not at all.
* Python exceptions / `frappe.throw` are the `Except String` error channel
  (a raised error carries its message); an observer raising inside `notify`
  propagates, as in Python.
* Python truthiness of `self.error : str | Exception | None` is modelled
  faithfully: `None` is falsy, an exception object is truthy, a string is
  truthy iff non-empty.
-/

namespace MpesaB2C

/-- Timestamps (datetime values) as naturals; only ordering and addition of a
seconds delta are used by the source. -/
abbrev Timestamp := Nat

/-- A persisted Daraja Access Token record (doctype `DARAJA_ACCESS_TOKENS_DOCTYPE`),
fields as written by `save_access_token`. -/
structure AccessToken where
  access_token : String
  expiry_time : Timestamp
  token_fetch_time : Timestamp
  associated_settings : String
deriving Repr, DecidableEq

/-- Status of an Integration Request record. -/
inductive ReqStatus
  | Pending
  | Completed
  | Failed
deriving Repr, DecidableEq

/-- A persisted Integration Request record, keyed by `name`
(the OriginatorConversationID used as correlation id). -/
structure IntegrationRequest where
  name : String
  url : String
  data : String
  request_headers : List (String × String)
  status : ReqStatus
  output : Option String
  error : Option String
deriving Repr, DecidableEq

/-- The persisted store plus the error log: the external collaborators'
state that the core reads and writes. -/
structure DB where
  access_tokens : List AccessToken
  integration_requests : List IntegrationRequest
  error_log : List (String × String)
deriving Repr, DecidableEq

/-- The value held in `ConnectorBaseClass.error : str | Exception | None`
(the `Option` wrapper models `None`). `exc` is an exception object carrying its
`str()` message; `str` is a plain string. -/
inductive ErrValue
  | exc : String → ErrValue
  | str : String → ErrValue
deriving Repr, DecidableEq

/-- Python `str(error)`. -/
def ErrValue.toMessage : ErrValue → String
  | .exc s => s
  | .str s => s

/-- Python truthiness of the error value: exception objects are truthy,
a string is truthy iff non-empty. -/
def ErrValue.truthy : ErrValue → Bool
  | .exc _ => true
  | .str s => s ≠ ""

/-- Python truthiness of the whole `str | Exception | None` field. -/
def errTruthy : Option ErrValue → Bool
  | none => false
  | some e => e.truthy

/-- Observers attachable to a connector; `ErrorObserver` is the sole concrete
`Observer` subclass in the source. -/
inductive Observer
  | errorObserver
deriving Repr, DecidableEq

/-- The mutable state of a `MpesaB2CConnector` instance
(`ConnectorBaseClass.__init__` fields plus `MpesaB2CConnector.__init__` fields). -/
structure Connector where
  error : Option ErrValue
  integration_request : Option String
  observers : List Observer
  authentication_token : Option String
  expires_in : Option Timestamp
  env : String
  app_key : Option String
  app_secret : Option String
  base_url : String
deriving Repr, DecidableEq

/-- `URLS.SANDBOX.value`. -/
def URLS_SANDBOX : String := "https://sandbox.safaricom.co.ke"

/-- `URLS.PRODUCTION.value`. -/
def URLS_PRODUCTION : String := "https://api.safaricom.co.ke"

/-- `ConnectorBaseClass.attach`: appends the observer to `self._observers`. -/
def Connector.attach (c : Connector) (o : Observer) : Connector :=
  { c with observers := c.observers ++ [o] }

/-- `MpesaB2CConnector.__init__`: base-class init (error/integration_request/observers),
token fields, env/credentials, base URL selection, then `self.attach(ErrorObserver())`. -/
def MpesaB2CConnector.init (env : String) (app_key app_secret : Option String) : Connector :=
  Connector.attach
    { error := none
      integration_request := none
      observers := []
      authentication_token := none
      expires_in := none
      env := env
      app_key := app_key
      app_secret := app_secret
      base_url := if env = "sandbox" then URLS_SANDBOX else URLS_PRODUCTION }
    Observer.errorObserver

/-- `update_integration_request` (utils/helpers.py): loads the Integration Request
by name (`frappe.get_doc` raises when the record does not exist, modelled as the
error channel), then overwrites its status, error and output fields and saves.
Records are matched by name; the overwrite applies to every record bearing the
name (names are unique keys in the store). -/
def update_integration_request (db : DB) (integration_request : String)
    (status : ReqStatus) (output : Option String) (error : Option String) :
    Except String DB :=
  if db.integration_requests.any (fun r => r.name = integration_request) then
    .ok { db with integration_requests := db.integration_requests.map (fun r =>
        if r.name = integration_request then
          { r with status := status, error := error, output := output }
        else r) }
  else .error "DoesNotExistError"

/-- `ErrorObserver.update`: when `notifier.error` is truthy, writes one
`frappe.log_error` entry (title HTTPError, message `str(error)`), marks the
notifier's integration request Failed with `error=str(error)` (output omitted,
hence `None`), and raises `str(error)` via `frappe.throw`. Otherwise a no-op.
The second component is the raised message, `none` when nothing was raised. -/
def ErrorObserver.update (notifier : Connector) (db : DB) : DB × Option String :=
  match notifier.error with
  | none => (db, none)
  | some e =>
    if e.truthy then
      let db1 := { db with error_log := db.error_log ++ [("HTTPError", e.toMessage)] }
      match notifier.integration_request with
      | none => (db1, some "DoesNotExistError")
      | some ir =>
        match update_integration_request db1 ir ReqStatus.Failed none (some e.toMessage) with
        | .error msg => (db1, some msg)
        | .ok db2 => (db2, some e.toMessage)
    else (db, none)

/-- Dispatch of `ConnectorBaseClass.notify`: `update(self)` on each observer in
list order; a raise inside an observer propagates and stops the dispatch. -/
def notifyList : List Observer → Connector → DB → DB × Option String
  | [], _, db => (db, none)
  | Observer.errorObserver :: rest, c, db =>
    match ErrorObserver.update c db with
    | (db1, some e) => (db1, some e)
    | (db1, none) => notifyList rest c db1

/-- `ConnectorBaseClass.notify`: notifies all registered observers in
attachment order, synchronously. -/
def Connector.notify (c : Connector) (db : DB) : DB × Option String :=
  notifyList c.observers c db

/-- Response of the token endpoint
(`GET {base}/oauth/v1/generate?grant_type=client_credentials`): the HTTP status
and, for the success case, the parsed `access_token` / `expires_in` fields. -/
structure AuthResponse where
  status_code : Nat
  access_token : String
  expires_in : Nat
deriving Repr, DecidableEq

/-- Outcome of `requests.post` to the payment endpoint: when
`connection_error` is set, the POST itself raised a `ConnectionError` with
that message (no response object exists); otherwise the response has the
given status (`raise_for_status` raises HTTPError when it is >= 400) and
`body` is the parsed JSON body returned by `response.json()`. -/
structure PostResponse where
  connection_error : Option String
  status_code : Nat
  body : String
deriving Repr, DecidableEq

/-- The HTTP environment of one operation: what the token endpoint and the
payment endpoint would answer, and the current site hostname
(`get_request_site_address`). -/
structure Externals where
  auth_response : AuthResponse
  post_response : PostResponse
  site_hostname : String
deriving Repr, DecidableEq

/-- Threaded state: the persisted store, the stream of `datetime.now()`
readings still to come, and the log of token-endpoint invocations with the
Basic-auth credentials each used (model instrumentation for counting
authentication calls). -/
structure St where
  db : DB
  clock : List Timestamp
  auth_call_log : List (Option String × Option String)
deriving Repr, DecidableEq

/-- One `datetime.now()` reading: consumes the head of the clock stream
(an exhausted stream keeps answering 0). -/
def nowTick : List Timestamp → Timestamp × List Timestamp
  | [] => (0, [])
  | t :: rest => (t, rest)

/-- The dict returned by a successful `authenticate`:
`{access_token, expires_in, fetched_time}` where `expires_in` is the absolute
expiry timestamp `self.expires_in` (not the seconds delta). -/
structure AuthReturn where
  access_token : String
  expires_in : Timestamp
  fetched_time : Timestamp
deriving Repr, DecidableEq

/-- `save_access_token` (utils/helpers.py): creates and submits one new
Daraja Access Token document with the given fields (the save is modelled as
succeeding; its failure path only rethrows and persists nothing). -/
def save_access_token (db : DB) (token : String) (expiry_time : Timestamp)
    (fetch_time : Timestamp) (associated_setting : String) : DB :=
  { db with access_tokens := db.access_tokens ++
      [{ access_token := token
         expiry_time := expiry_time
         token_fetch_time := fetch_time
         associated_settings := associated_setting }] }

/-- `MpesaB2CConnector.authenticate`: performs the Basic-auth GET (recorded in
`auth_call_log` with the credentials used). On status < 400 it reads the clock
for the expiry computation (`datetime.now() + timedelta(seconds=expires_in)`),
sets `self.authentication_token` and `self.expires_in`, reads the clock a
second time for `fetch_time`, persists the token via `save_access_token` and
returns the dict. On status >= 400 it raises via `frappe.throw` with a message
naming the setting, saving nothing. -/
def MpesaB2CConnector.authenticate (c : Connector) (setting : String)
    (ext : Externals) (s : St) : Connector × St × Except String AuthReturn :=
  let s0 : St := { s with auth_call_log := s.auth_call_log ++ [(c.app_key, c.app_secret)] }
  let r := ext.auth_response
  if r.status_code < 400 then
    let (t1, clock1) := nowTick s0.clock
    let expiry := t1 + r.expires_in
    let (fetch_time, clock2) := nowTick clock1
    let c1 : Connector :=
      { c with authentication_token := some r.access_token, expires_in := some expiry }
    let db1 := save_access_token s0.db r.access_token expiry fetch_time setting
    (c1, { s0 with db := db1, clock := clock2 },
      .ok { access_token := r.access_token, expires_in := expiry, fetched_time := fetch_time })
  else
    (c, s0,
      .error ("Can't get token with provided Credentials for setting: <b>" ++ setting ++ "</b>"))

/-- Modelled from the spec: `B2CRequestDefinition` (utils/definitions.py is not
among the sources) is an immutable value object describing one disbursement:
the correlation id (`OriginatorConversationID`), the auth credentials
(`ConsumerKey`/`ConsumerSecret`, used only for authentication), the Mpesa
Settings reference (`Setting`), and the remaining provider-specific fields. -/
structure B2CRequestDefinition where
  OriginatorConversationID : String
  ConsumerKey : String
  ConsumerSecret : String
  Setting : String
  fields : List (String × String)
deriving Repr, DecidableEq

/-- Serialization of key/value pairs into a wire string. -/
def serializePairs : List (String × String) → String
  | [] => ""
  | (k, v) :: rest => k ++ "=" ++ v ++ ";" ++ serializePairs rest

/-- Modelled from the spec: `B2CRequestDefinition.to_json` serializes the
request to the provider payload, injecting the extra pairs the connector
passes (QueueTimeOutURL and ResultURL). -/
def B2CRequestDefinition.to_json (rd : B2CRequestDefinition)
    (extra : List (String × String)) : String :=
  serializePairs
    ([("OriginatorConversationID", rd.OriginatorConversationID)] ++ rd.fields ++ extra)

/-- Modelled from the spec: frappe's `create_request_log` (the external
Integration Record Store) creates one Integration Request record keyed by the
given name, storing url, payload and headers, with implicit status Pending and
empty output/error, and returns the record (whose `.name` the connector
stores). -/
def create_request_log (db : DB) (url : String) (data : String) (name : String)
    (request_headers : List (String × String)) : DB × String :=
  ({ db with integration_requests := db.integration_requests ++
      [{ name := name
         url := url
         data := data
         request_headers := request_headers
         status := ReqStatus.Pending
         output := none
         error := none }] }, name)

/-- First Daraja Access Token record matching
`frappe.db.get_value(..., {associated_settings: setting, expiry_time: [">", now]})`. -/
def lookupValidToken (db : DB) (setting : String) (t : Timestamp) : Option AccessToken :=
  db.access_tokens.find? (fun tk =>
    tk.associated_settings == setting && decide (t < tk.expiry_time))

/-- Callback URL built from the current site hostname, pointing at
`results_callback_url`. -/
def callbackUrlOf (host : String) : String :=
  "https://" ++ host ++
    "/api/method/navari_mpesa_b2c.mpesa_b2c.scripts.server.mpesa_connector.results_callback_url"

/-- Body of `make_b2c_payment_request` from the point where the access token
has been resolved (`self.authentication_token` set): builds the payment URL,
the callback URL, the payload and the Bearer headers, creates the Integration
Request tracking record (storing its name in `self.integration_request`), then
POSTs. A `ConnectionError` of the POST or an HTTPError from
`raise_for_status` is caught, stored in `self.error` and `self.notify()` runs
(its raise propagating); when control survives the handler, the source falls
through to `return response.json()` — an unbound `response` when the POST
itself failed. -/
def submitPayment (c : Connector) (rd : B2CRequestDefinition) (ext : Externals)
    (s : St) : Connector × St × Except String String :=
  let saf_url := c.base_url ++ "/mpesa/b2c/v3/paymentrequest"
  let callback_url := callbackUrlOf ext.site_hostname
  let payload := rd.to_json [("QueueTimeOutURL", callback_url), ("ResultURL", callback_url)]
  let headers := [("Authorization", "Bearer " ++ c.authentication_token.getD "None"),
                  ("Content-Type", "application/json")]
  let created := create_request_log s.db saf_url payload rd.OriginatorConversationID headers
  let c1 : Connector := { c with integration_request := some created.2 }
  let s1 : St := { s with db := created.1 }
  match ext.post_response.connection_error with
  | some msg =>
    let c2 : Connector := { c1 with error := some (ErrValue.exc msg) }
    match Connector.notify c2 s1.db with
    | (db2, some e) => (c2, { s1 with db := db2 }, .error e)
    | (db2, none) => (c2, { s1 with db := db2 }, .error "UnboundLocalError: response")
  | none =>
    if 400 ≤ ext.post_response.status_code then
      let msg := toString ext.post_response.status_code ++ " Error for url: " ++ saf_url
      let c2 : Connector := { c1 with error := some (ErrValue.exc msg) }
      match Connector.notify c2 s1.db with
      | (db2, some e) => (c2, { s1 with db := db2 }, .error e)
      | (db2, none) => (c2, { s1 with db := db2 }, .ok ext.post_response.body)
    else
      (c1, s1, .ok ext.post_response.body)

/-- `MpesaB2CConnector.make_b2c_payment_request`: queries the store for a
non-expired Daraja Access Token for `request_data.Setting` (one
`datetime.now()` reading). When none exists, sets `self.app_key` and
`self.app_secret` from the request's ConsumerKey/ConsumerSecret and calls
`authenticate` (whose raise on failure propagates), taking the dict's
`access_token`. When one exists, uses its decrypted stored token directly.
Then proceeds to build and submit the payment (`submitPayment`). -/
def MpesaB2CConnector.make_b2c_payment_request (c : Connector)
    (rd : B2CRequestDefinition) (ext : Externals) (s : St) :
    Connector × St × Except String String :=
  let ticked := nowTick s.clock
  let s1 : St := { s with clock := ticked.2 }
  match lookupValidToken s1.db rd.Setting ticked.1 with
  | none =>
    let c1 : Connector :=
      { c with app_key := some rd.ConsumerKey, app_secret := some rd.ConsumerSecret }
    match MpesaB2CConnector.authenticate c1 rd.Setting ext s1 with
    | (c2, s2, .error e) => (c2, s2, .error e)
    | (c2, s2, .ok ret) =>
      submitPayment { c2 with authentication_token := some ret.access_token } rd ext s2
  | some tok =>
    submitPayment { c with authentication_token := some tok.access_token } rd ext s1

/-- The result envelope delivered to the callback endpoint
(`kwargs["Result"]`), with the fields the handler reads. -/
structure CallbackResult where
  ResultCode : Int
  ResultDesc : String
  OriginatorConversationID : String
deriving Repr, DecidableEq

/-- Stringification of the result envelope as stored into the record's
output field. -/
def CallbackResult.serialize (r : CallbackResult) : String :=
  "ResultCode=" ++ toString r.ResultCode ++ ";ResultDesc=" ++ r.ResultDesc ++
    ";OriginatorConversationID=" ++ r.OriginatorConversationID

/-- `results_callback_url`: on `ResultCode != 0` marks the Integration Request
named by `OriginatorConversationID` Failed, storing the envelope as output and
`ResultDesc` as error; any other `ResultCode` takes no action at all (the
function body has no other branch). The second component is a raised message
(`frappe.get_doc` on a missing record), `none` otherwise. -/
def results_callback_url (db : DB) (result : CallbackResult) : DB × Option String :=
  if result.ResultCode ≠ 0 then
    match update_integration_request db result.OriginatorConversationID ReqStatus.Failed
        (some result.serialize) (some result.ResultDesc) with
    | .ok db1 => (db1, none)
    | .error msg => (db, some msg)
  else
    (db, none)

/-- A public operation on a connector, together with the HTTP environment it
runs against (used to state reachability invariants over arbitrary call
sequences). -/
inductive Op
  | attachOp (o : Observer)
  | notifyOp
  | authOp (setting : String) (ext : Externals)
  | payOp (rd : B2CRequestDefinition) (ext : Externals)

/-- Effect of one public operation on the connector and the threaded state
(raised errors are dropped: the caller may catch them and keep the object). -/
def applyOp (c : Connector) (s : St) : Op → Connector × St
  | .attachOp o => (Connector.attach c o, s)
  | .notifyOp => (c, { s with db := (Connector.notify c s.db).1 })
  | .authOp setting ext =>
    let r := MpesaB2CConnector.authenticate c setting ext s
    (r.1, r.2.1)
  | .payOp rd ext =>
    let r := MpesaB2CConnector.make_b2c_payment_request c rd ext s
    (r.1, r.2.1)

/-- Runs a sequence of public operations. -/
def runOps (c : Connector) (s : St) : List Op → Connector × St
  | [] => (c, s)
  | op :: rest =>
    let r := applyOp c s op
    runOps r.1 r.2 rest

/-- Pending record and store reused in the C5 scenarios. -/
def req5 : IntegrationRequest :=
  { name := "X", url := "u", data := "d", request_headers := [],
    status := ReqStatus.Pending, output := none, error := none }

/-- Store holding only `req5`. -/
def db5 : DB := { access_tokens := [], integration_requests := [req5], error_log := [] }

/-- A freshly constructed connector whose error field holds the empty string:
a value that is set (not `None`) yet falsy for Python's `if notifier.error:`. -/
def c5Falsy : Connector :=
  { MpesaB2CConnector.init "sandbox" none none with
      error := some (ErrValue.str ""), integration_request := some "X" }

/-- A freshly constructed connector carrying a truthy error (an exception). -/
def c5Truthy : Connector :=
  { MpesaB2CConnector.init "sandbox" none none with
      error := some (ErrValue.exc "boom"), integration_request := some "X" }

/-- The record `req5` as the error observer leaves it. -/
def req5Failed : IntegrationRequest :=
  { name := "X", url := "u", data := "d", request_headers := [],
    status := ReqStatus.Failed, output := none, error := some "boom" }

/-- Pending record used in the C2 scenarios. -/
def req2 : IntegrationRequest :=
  { name := "X", url := "u", data := "d", request_headers := [],
    status := ReqStatus.Pending, output := none, error := none }

/-- Store holding only `req2`. -/
def db2 : DB := { access_tokens := [], integration_requests := [req2], error_log := [] }

/-- A success result envelope for `req2`. -/
def cbSuccess : CallbackResult :=
  { ResultCode := 0, ResultDesc := "ok", OriginatorConversationID := "X" }

/-- The failure envelope of the spec scenario. -/
def cbFail : CallbackResult :=
  { ResultCode := 1, ResultDesc := "Insufficient funds", OriginatorConversationID := "X" }

/-- The record `req2` after the spec-scenario failure envelope is applied. -/
def req2Failed : IntegrationRequest :=
  { name := "X", url := "u", data := "d", request_headers := [],
    status := ReqStatus.Failed, output := some cbFail.serialize,
    error := some "Insufficient funds" }

/-- Pending record used in the C8 scenarios. -/
def req8 : IntegrationRequest :=
  { name := "X", url := "u", data := "d", request_headers := [],
    status := ReqStatus.Pending, output := none, error := none }

/-- Store holding only `req8`. -/
def db8 : DB := { access_tokens := [], integration_requests := [req8], error_log := [] }

/-- First callback delivery: a failure envelope. -/
def cb8a : CallbackResult :=
  { ResultCode := 1, ResultDesc := "A", OriginatorConversationID := "X" }

/-- Second callback delivery for the same id: a success envelope. -/
def cb8b : CallbackResult :=
  { ResultCode := 0, ResultDesc := "B", OriginatorConversationID := "X" }

/-- The record `req8` as the first delivery leaves it. -/
def req8AfterFirst : IntegrationRequest :=
  { name := "X", url := "u", data := "d", request_headers := [],
    status := ReqStatus.Failed, output := some cb8a.serialize, error := some "A" }

/-- Connector with a pending transport error, used as C10's concrete input. -/
def c10 : Connector :=
  { MpesaB2CConnector.init "sandbox" none none with
      error := some (ErrValue.exc "conn reset"), integration_request := some "Y" }

/-- Store whose record "Y" already carries a stored output, used as C10's
concrete input. -/
def req10 : IntegrationRequest :=
  { name := "Y", url := "u", data := "d", request_headers := [],
    status := ReqStatus.Completed, output := some "prev", error := none }

def db10 : DB :=
  { access_tokens := [], integration_requests := [req10], error_log := [] }

/-- The Integration Request record `make_b2c_payment_request` creates before
POSTing: keyed by the correlation id, storing the payment URL, the payload
(callback URLs injected) and the Bearer headers, implicitly Pending. -/
def pendingRecord (base_url : String) (rd : B2CRequestDefinition)
    (host tokenUsedStr : String) : IntegrationRequest :=
  { name := rd.OriginatorConversationID,
    url := base_url ++ "/mpesa/b2c/v3/paymentrequest",
    data := rd.to_json [("QueueTimeOutURL", callbackUrlOf host),
                        ("ResultURL", callbackUrlOf host)],
    request_headers := [("Authorization", "Bearer " ++ tokenUsedStr),
                        ("Content-Type", "application/json")],
    status := ReqStatus.Pending,
    output := none,
    error := none }

/-- The message `str(e)` of the exception the POST raises: the connection
error's message, or the HTTPError message `raise_for_status` builds from the
status code and URL. -/
def postErrorMessage (c : Connector) (ext : Externals) : String :=
  match ext.post_response.connection_error with
  | some m => m
  | none => toString ext.post_response.status_code ++ " Error for url: " ++
      (c.base_url ++ "/mpesa/b2c/v3/paymentrequest")

/-- The access-token string the payment submission uses: the cached stored
token when a valid one exists, otherwise the freshly fetched one. -/
def tokenUsed (s : St) (rd : B2CRequestDefinition) (ext : Externals) : String :=
  match lookupValidToken s.db rd.Setting (nowTick s.clock).1 with
  | some tok => tok.access_token
  | none => ext.auth_response.access_token

/-- A still-valid cached token for setting "S" (expires at 100). -/
def tokCached : AccessToken :=
  { access_token := "cached", expiry_time := 100, token_fetch_time := 0,
    associated_settings := "S" }

/-- A freshly constructed sandbox connector (no credentials). -/
def cFresh : Connector := MpesaB2CConnector.init "sandbox" none none

/-- A disbursement request for setting "S" with correlation id "OCID1". -/
def rd1 : B2CRequestDefinition :=
  { OriginatorConversationID := "OCID1", ConsumerKey := "CK", ConsumerSecret := "CS",
    Setting := "S", fields := [("Amount", "10")] }

/-- HTTP environment where both endpoints succeed. -/
def extOk : Externals :=
  { auth_response := { status_code := 200, access_token := "fresh", expires_in := 3600 },
    post_response := { connection_error := none, status_code := 200, body := "ack" },
    site_hostname := "host" }

/-- State holding the valid cached token, current time 50. -/
def sCached : St :=
  { db := { access_tokens := [tokCached], integration_requests := [], error_log := [] },
    clock := [50, 60, 70], auth_call_log := [] }

/-- Empty-store state whose clock advances from 0 to 5 between the two
`datetime.now()` calls of `authenticate`. -/
def s4 : St :=
  { db := { access_tokens := [], integration_requests := [], error_log := [] },
    clock := [0, 5], auth_call_log := [] }

/-- Empty-store state whose two clock readings coincide (both 7). -/
def s4Eq : St :=
  { db := { access_tokens := [], integration_requests := [], error_log := [] },
    clock := [7, 7], auth_call_log := [] }

/-- The token `authenticate` persists in state `s4` under `extOk`:
expiry from the first reading (0 + 3600), fetch time from the second (5). -/
def tok4Bad : AccessToken :=
  { access_token := "fresh", expiry_time := 3600, token_fetch_time := 5,
    associated_settings := "S" }

/-- HTTP environment whose token endpoint rejects the credentials. -/
def ext7 : Externals :=
  { auth_response := { status_code := 401, access_token := "", expires_in := 0 },
    post_response := { connection_error := none, status_code := 200, body := "ack" },
    site_hostname := "host" }

/-- HTTP environment where the payment POST returns HTTP 500. -/
def ext3 : Externals :=
  { auth_response := { status_code := 200, access_token := "fresh", expires_in := 3600 },
    post_response := { connection_error := none, status_code := 500, body := "err" },
    site_hostname := "host" }

/-! ### Helper lemmas -/

theorem submitPayment_observers (c : Connector) (rd : B2CRequestDefinition)
    (ext : Externals) (s : St) :
    (submitPayment c rd ext s).1.observers = c.observers := by
  unfold submitPayment
  dsimp only
  split
  · split <;> rfl
  · split
    · split <;> rfl
    · rfl

theorem submitPayment_auth_call_log (c : Connector) (rd : B2CRequestDefinition)
    (ext : Externals) (s : St) :
    (submitPayment c rd ext s).2.1.auth_call_log = s.auth_call_log := by
  unfold submitPayment
  dsimp only
  split
  · split <;> rfl
  · split
    · split <;> rfl
    · rfl

theorem submitPayment_authentication_token (c : Connector) (rd : B2CRequestDefinition)
    (ext : Externals) (s : St) :
    (submitPayment c rd ext s).1.authentication_token = c.authentication_token := by
  unfold submitPayment
  dsimp only
  split
  · split <;> rfl
  · split
    · split <;> rfl
    · rfl

theorem authenticate_observers (c : Connector) (setting : String)
    (ext : Externals) (s : St) :
    (MpesaB2CConnector.authenticate c setting ext s).1.observers = c.observers := by
  unfold MpesaB2CConnector.authenticate
  dsimp only
  split <;> rfl

theorem make_observers (c : Connector) (rd : B2CRequestDefinition)
    (ext : Externals) (s : St) :
    (MpesaB2CConnector.make_b2c_payment_request c rd ext s).1.observers = c.observers := by
  unfold MpesaB2CConnector.make_b2c_payment_request
  dsimp only
  split
  case h_1 =>
    split
    case h_1 heq =>
      have := authenticate_observers
        { c with app_key := some rd.ConsumerKey, app_secret := some rd.ConsumerSecret }
        rd.Setting ext { s with clock := (nowTick s.clock).2 }
      rw [heq] at this
      exact this
    case h_2 heq =>
      rw [submitPayment_observers]
      have := authenticate_observers
        { c with app_key := some rd.ConsumerKey, app_secret := some rd.ConsumerSecret }
        rd.Setting ext { s with clock := (nowTick s.clock).2 }
      rw [heq] at this
      exact this
  case h_2 =>
    rw [submitPayment_observers]

theorem applyOp_observers_mem (c : Connector) (s : St) (op : Op)
    (h : Observer.errorObserver ∈ c.observers) :
    Observer.errorObserver ∈ (applyOp c s op).1.observers := by
  cases op with
  | attachOp o =>
    simp only [applyOp, Connector.attach, List.mem_append]
    exact Or.inl h
  | notifyOp => exact h
  | authOp setting ext =>
    simpa only [applyOp, authenticate_observers] using h
  | payOp rd ext =>
    simpa only [applyOp, make_observers] using h

theorem runOps_observers_mem (ops : List Op) (c : Connector) (s : St)
    (h : Observer.errorObserver ∈ c.observers) :
    Observer.errorObserver ∈ (runOps c s ops).1.observers := by
  induction ops generalizing c s with
  | nil => exact h
  | cons op rest ih =>
    exact ih _ _ (applyOp_observers_mem c s op h)

theorem errorObserver_update_falsy (c : Connector) (db : DB)
    (h : errTruthy c.error = false) : ErrorObserver.update c db = (db, none) := by
  unfold ErrorObserver.update
  cases he : c.error with
  | none => rfl
  | some e =>
    rw [he] at h
    simp only [errTruthy] at h
    simp [h]

theorem notifyList_falsy (l : List Observer) (c : Connector) (db : DB)
    (h : errTruthy c.error = false) : notifyList l c db = (db, none) := by
  induction l with
  | nil => rfl
  | cons o rest ih =>
    cases o
    unfold notifyList
    rw [errorObserver_update_falsy c db h]
    exact ih

theorem errorObserver_update_truthy (c : Connector) (db : DB)
    (h : errTruthy c.error = true) :
    ∃ db1 e, ErrorObserver.update c db = (db1, some e) := by
  unfold ErrorObserver.update
  cases he : c.error with
  | none => rw [he] at h; simp [errTruthy] at h
  | some e =>
    rw [he] at h
    simp only [errTruthy] at h
    simp only [h, if_true]
    cases hi : c.integration_request with
    | none => exact ⟨_, _, rfl⟩
    | some ir =>
      dsimp only
      rcases hu : update_integration_request
          { db with error_log := db.error_log ++ [("HTTPError", e.toMessage)] }
          ir ReqStatus.Failed none (some e.toMessage) with msg | db2 <;>
        exact ⟨_, _, rfl⟩

theorem notifyList_cons_truthy (o : Observer) (rest : List Observer)
    (c : Connector) (db : DB) (h : errTruthy c.error = true) :
    notifyList (o :: rest) c db = ErrorObserver.update c db := by
  cases o
  obtain ⟨db1, e, hu⟩ := errorObserver_update_truthy c db h
  unfold notifyList
  rw [hu]

theorem notify_truthy (c : Connector) (db : DB) (hobs : c.observers ≠ [])
    (h : errTruthy c.error = true) :
    Connector.notify c db = ErrorObserver.update c db := by
  unfold Connector.notify
  cases ho : c.observers with
  | nil => exact absurd ho hobs
  | cons o rest => exact notifyList_cons_truthy o rest c db h

theorem errorObserver_update_eq (c : Connector) (db : DB) (e : ErrValue) (ir : String)
    (he : c.error = some e) (ht : e.truthy = true) (hi : c.integration_request = some ir)
    (hmem : db.integration_requests.any (fun r => r.name = ir) = true) :
    ErrorObserver.update c db =
      ({ db with
           error_log := db.error_log ++ [("HTTPError", e.toMessage)]
           integration_requests := db.integration_requests.map (fun r =>
             if r.name = ir then
               { r with status := ReqStatus.Failed, error := some e.toMessage, output := none }
             else r) },
       some e.toMessage) := by
  unfold ErrorObserver.update
  rw [he]
  simp only [ht, if_true]
  rw [hi]
  unfold update_integration_request
  simp only [hmem]
  rfl

/-! ### Claim theorems -/

/-- C9: a connector holds an ErrorObserver in its observer list immediately
after construction and after any sequence of public operations (none of which
can remove it); and `attach` only appends to the list. `notify` dispatches
`update(self)` over `observers` head-first (see `notifyList`), i.e. in
attachment order, synchronously. -/
theorem C9_error_observer_wiring :
    (∀ env app_key app_secret s ops,
      Observer.errorObserver ∈
        (runOps (MpesaB2CConnector.init env app_key app_secret) s ops).1.observers)
    ∧ (∀ c o, (Connector.attach c o).observers = c.observers ++ [o])
    ∧ (∀ c db, Connector.notify c db = notifyList c.observers c db) := by
  refine ⟨fun env k sec s ops => ?_, fun c o => rfl, fun c db => rfl⟩
  exact runOps_observers_mem ops _ s (by simp [MpesaB2CConnector.init, Connector.attach])

theorem callback_fail_eq (db : DB) (result : CallbackResult)
    (h : result.ResultCode ≠ 0)
    (hmem : db.integration_requests.any
      (fun r => r.name = result.OriginatorConversationID) = true) :
    results_callback_url db result =
      ({ db with integration_requests := db.integration_requests.map (fun r =>
          if r.name = result.OriginatorConversationID then
            { r with status := ReqStatus.Failed, error := some result.ResultDesc,
                     output := some result.serialize }
          else r) }, none) := by
  unfold results_callback_url
  rw [if_pos h]
  unfold update_integration_request
  simp only [hmem]
  rfl

theorem callback_fail_missing (db : DB) (result : CallbackResult)
    (h : result.ResultCode ≠ 0)
    (hmem : db.integration_requests.any
      (fun r => r.name = result.OriginatorConversationID) = false) :
    results_callback_url db result = (db, some "DoesNotExistError") := by
  unfold results_callback_url
  rw [if_pos h]
  unfold update_integration_request
  simp only [hmem]
  rfl

theorem callback_success_eq (db : DB) (result : CallbackResult)
    (h : result.ResultCode = 0) :
    results_callback_url db result = (db, none) := by
  unfold results_callback_url
  rw [if_neg (fun hne => hne h)]

theorem map_overwrite_name (n : String) (st : ReqStatus) (out err : Option String)
    (r : IntegrationRequest) :
    (if r.name = n then { r with status := st, error := err, output := out } else r).name
      = r.name := by
  split <;> rfl

theorem any_name_map (l : List IntegrationRequest) (n m : String) (st : ReqStatus)
    (out err : Option String) :
    ((l.map (fun r =>
        if r.name = n then { r with status := st, error := err, output := out } else r)).any
      (fun r => r.name = m)) = l.any (fun r => r.name = m) := by
  induction l with
  | nil => rfl
  | cons r rest ih =>
    simp only [List.map_cons, List.any_cons, ih, map_overwrite_name]

theorem map_overwrite_comp (l : List IntegrationRequest) (n : String)
    (st1 st2 : ReqStatus) (out1 out2 err1 err2 : Option String) :
    ((l.map (fun r =>
        if r.name = n then { r with status := st1, error := err1, output := out1 } else r)).map
      (fun r =>
        if r.name = n then { r with status := st2, error := err2, output := out2 } else r))
    = l.map (fun r =>
        if r.name = n then { r with status := st2, error := err2, output := out2 } else r) := by
  induction l with
  | nil => rfl
  | cons r rest ih =>
    simp only [List.map_cons, ih]
    congr 1
    by_cases h : r.name = n <;> simp [h]

/-- C5 (counterexample): the error field holding the empty string is set
(not `None`), yet `notify()` writes no log entry, mutates no record and raises
nothing, because `ErrorObserver.update` guards on Python truthiness
(`if notifier.error:`) rather than on `is not None`. -/
theorem C5_counterexample :
    c5Falsy.error ≠ none ∧ Connector.notify c5Falsy db5 = (db5, none) := by
  exact ⟨by simp [c5Falsy], rfl⟩

/-- C5 (amended): `notify()` raises, writes one log entry and mutates the
IntegrationRequest record if and only if the connector's error field is truthy
in Python's sense: with a falsy error (`None` or the empty string) it produces
no log entry, no record mutation and no raised error; with a truthy error
(any exception object, or a non-empty string) and the standard wiring it
produces exactly one log entry, marks the associated IntegrationRequest Failed
with error text equal to the stringified error, and raises that same text. -/
theorem C5_notify_truthiness :
    (∀ c db, errTruthy c.error = false → Connector.notify c db = (db, none))
    ∧ (∀ c db e ir, c.error = some e → e.truthy = true →
        c.integration_request = some ir → c.observers ≠ [] →
        db.integration_requests.any (fun r => r.name = ir) = true →
        Connector.notify c db =
          ({ db with
               error_log := db.error_log ++ [("HTTPError", e.toMessage)]
               integration_requests := db.integration_requests.map (fun r =>
                 if r.name = ir then
                   { r with status := ReqStatus.Failed, error := some e.toMessage,
                            output := none }
                 else r) },
           some e.toMessage)) := by
  constructor
  · intro c db h
    exact notifyList_falsy c.observers c db h
  · intro c db e ir he ht hi hobs hmem
    rw [notify_truthy c db hobs (by rw [he]; exact ht)]
    exact errorObserver_update_eq c db e ir he ht hi hmem

/-- C5 (witness): on a concrete truthy-error connector the amended theorem
computes the log entry, the Failed record and the raised message. -/
theorem C5_notify_truthiness_witness :
    Connector.notify c5Truthy db5 =
      ({ access_tokens := [], integration_requests := [req5Failed],
         error_log := [("HTTPError", "boom")] }, some "boom") := by
  exact C5_notify_truthiness.2 c5Truthy db5 (ErrValue.exc "boom") "X" rfl rfl rfl
    (by simp [c5Truthy, MpesaB2CConnector.init, Connector.attach]) rfl

/-- C2 (counterexample): a success envelope (`ResultCode = 0`) delivered for an
existing Pending record leaves the store completely unchanged — the record is
not marked Completed and no output is stored, refuting the symmetric
success-marking half of the claim (the handler has no success branch). -/
theorem C2_counterexample :
    results_callback_url db2 cbSuccess = (db2, none)
    ∧ db2.integration_requests = [req2]
    ∧ req2.status = ReqStatus.Pending := by
  exact ⟨rfl, rfl, rfl⟩

/-- C2 (amended): on `ResultCode != 0` the record keyed by
OriginatorConversationID is marked Failed with the full result envelope stored
as output and ResultDesc as error; on `ResultCode == 0` the handler takes no
action at all (no record update, no raise). -/
theorem C2_callback_marking :
    (∀ db result, result.ResultCode ≠ 0 →
       db.integration_requests.any
         (fun r => r.name = result.OriginatorConversationID) = true →
       results_callback_url db result =
         ({ db with integration_requests := db.integration_requests.map (fun r =>
             if r.name = result.OriginatorConversationID then
               { r with status := ReqStatus.Failed, error := some result.ResultDesc,
                        output := some result.serialize }
             else r) }, none))
    ∧ (∀ db result, result.ResultCode = 0 → results_callback_url db result = (db, none)) := by
  exact ⟨fun db result h hmem => callback_fail_eq db result h hmem,
         fun db result h => callback_success_eq db result h⟩

/-- C2 (witness): the spec scenario — ResultCode 1, ResultDesc
"Insufficient funds", id "X" — marks the matching record Failed with
error "Insufficient funds" and the envelope as output. -/
theorem C2_callback_marking_witness :
    results_callback_url db2 cbFail =
      ({ access_tokens := [], integration_requests := [req2Failed],
         error_log := [] }, none) := by
  exact C2_callback_marking.1 db2 cbFail (by simp [cbFail]) rfl

/-- C8 (counterexample): delivering a failure envelope (desc "A") and then a
success envelope (desc "B") for the same id leaves the record reflecting the
FIRST call (Failed, error "A", output of the first envelope), because the
handler ignores `ResultCode = 0` entirely — the final state does not reflect
the second invocation. -/
theorem C8_counterexample :
    (results_callback_url (results_callback_url db8 cb8a).1 cb8b).1 =
      { access_tokens := [], integration_requests := [req8AfterFirst],
        error_log := [] }
    ∧ cb8a.ResultDesc ≠ cb8b.ResultDesc := by
  exact ⟨rfl, by simp [cb8a, cb8b]⟩

/-- C8 (amended): for two successive deliveries for the same id that BOTH
carry a non-zero ResultCode, the callback handler is last-write-wins: the
final store is exactly what the second delivery alone would have produced
(the update overwrites status, output and error unconditionally). -/
theorem C8_last_write_wins (db : DB) (r1 r2 : CallbackResult)
    (hid : r1.OriginatorConversationID = r2.OriginatorConversationID)
    (h1 : r1.ResultCode ≠ 0) (h2 : r2.ResultCode ≠ 0) :
    results_callback_url (results_callback_url db r1).1 r2 =
      results_callback_url db r2 := by
  by_cases hmem : db.integration_requests.any
      (fun r => r.name = r2.OriginatorConversationID) = true
  · rw [callback_fail_eq db r1 h1 (by rw [hid]; exact hmem)]
    dsimp only
    rw [callback_fail_eq _ r2 h2 (by dsimp only; rw [hid, any_name_map]; exact hmem),
        callback_fail_eq db r2 h2 hmem]
    dsimp only
    rw [hid, map_overwrite_comp]
  · rw [callback_fail_missing db r1 h1
      (by rw [hid]; exact Bool.eq_false_iff.mpr hmem)]

/-- C8 (witness): two concrete failure envelopes for the same id — the final
store equals what the second alone produces. -/
theorem C8_last_write_wins_witness :
    results_callback_url (results_callback_url db8
        { ResultCode := 1, ResultDesc := "first", OriginatorConversationID := "X" }).1
        { ResultCode := 2, ResultDesc := "second", OriginatorConversationID := "X" } =
      results_callback_url db8
        { ResultCode := 2, ResultDesc := "second", OriginatorConversationID := "X" } := by
  exact C8_last_write_wins db8 _ _ rfl (by decide) (by decide)

/-- C10: `update_integration_request` overwrites all three of status, output
and error on every record bearing the key (omitted Python parameters default
to `None`); consequently when `ErrorObserver.update` marks a request Failed
after a transport error — passing only `error` — the record's output field is
overwritten with `None`, erasing any previously stored output. -/
theorem C10_full_overwrite :
    (∀ db n st out err,
       db.integration_requests.any (fun r => r.name = n) = true →
       update_integration_request db n st out err =
         .ok { db with integration_requests := db.integration_requests.map (fun r =>
             if r.name = n then { r with status := st, error := err, output := out }
             else r) })
    ∧ (∀ c db m ir, c.error = some (ErrValue.exc m) → c.integration_request = some ir →
        db.integration_requests.any (fun r => r.name = ir) = true →
        (ErrorObserver.update c db).1.integration_requests =
          db.integration_requests.map (fun r =>
            if r.name = ir then
              { r with status := ReqStatus.Failed, error := some m, output := none }
            else r)) := by
  constructor
  · intro db n st out err hmem
    unfold update_integration_request
    simp only [hmem]
    rfl
  · intro c db m ir he hi hmem
    rw [errorObserver_update_eq c db (ErrValue.exc m) ir he rfl hi hmem]
    rfl

/-- C10 (witness): the record's previously stored output "prev" is erased to
`none` when the error observer marks it Failed. -/
theorem C10_full_overwrite_witness :
    (ErrorObserver.update c10 db10).1.integration_requests =
      [{ name := "Y", url := "u", data := "d", request_headers := [],
         status := ReqStatus.Failed, output := none, error := some "conn reset" }] := by
  exact C10_full_overwrite.2 c10 db10 "conn reset" "Y" rfl rfl rfl

theorem authenticate_auth_call_log (c : Connector) (setting : String)
    (ext : Externals) (s : St) :
    (MpesaB2CConnector.authenticate c setting ext s).2.1.auth_call_log =
      s.auth_call_log ++ [(c.app_key, c.app_secret)] := by
  unfold MpesaB2CConnector.authenticate
  dsimp only
  split <;> rfl

/-- C1: `make_b2c_payment_request` hits the token endpoint exactly once — with
the ConsumerKey/ConsumerSecret embedded in the request — when no cached
non-expired token exists for the setting, and not at all when one exists; in
the cached case the submission carries the cached token's value. -/
theorem C1_token_cache_policy (c : Connector) (rd : B2CRequestDefinition)
    (ext : Externals) (s : St) :
    ((MpesaB2CConnector.make_b2c_payment_request c rd ext s).2.1.auth_call_log =
      s.auth_call_log ++
        (if (lookupValidToken s.db rd.Setting (nowTick s.clock).1).isSome then []
         else [(some rd.ConsumerKey, some rd.ConsumerSecret)]))
    ∧ (∀ tok, lookupValidToken s.db rd.Setting (nowTick s.clock).1 = some tok →
        (MpesaB2CConnector.make_b2c_payment_request c rd ext s).1.authentication_token =
          some tok.access_token) := by
  unfold MpesaB2CConnector.make_b2c_payment_request
  dsimp only
  cases hl : lookupValidToken s.db rd.Setting (nowTick s.clock).1 with
  | none =>
    simp only [Option.isSome_none, Bool.false_eq_true, if_false]
    constructor
    · split
      case h_1 c2 s2 e heq =>
        have h := authenticate_auth_call_log
          { c with app_key := some rd.ConsumerKey, app_secret := some rd.ConsumerSecret }
          rd.Setting ext { s with clock := (nowTick s.clock).2 }
        rw [heq] at h
        exact h
      case h_2 c2 s2 ret heq =>
        rw [submitPayment_auth_call_log]
        have h := authenticate_auth_call_log
          { c with app_key := some rd.ConsumerKey, app_secret := some rd.ConsumerSecret }
          rd.Setting ext { s with clock := (nowTick s.clock).2 }
        rw [heq] at h
        exact h
    · intro tok htok
      exact absurd htok (by simp)
  | some tok =>
    constructor
    · rw [submitPayment_auth_call_log]
      simp
    · intro tok' htok
      injection htok with htok
      rw [submitPayment_authentication_token, htok]

/-- C1 (witness): with the valid cached token in store, the submission uses
the cached token value (and, per the same theorem, the auth endpoint log is
untouched). -/
theorem C1_token_cache_policy_witness :
    (MpesaB2CConnector.make_b2c_payment_request cFresh rd1 extOk sCached).1.authentication_token =
      some "cached"
    ∧ (MpesaB2CConnector.make_b2c_payment_request cFresh rd1 extOk sCached).2.1.auth_call_log =
      [] := by
  refine ⟨(C1_token_cache_policy cFresh rd1 extOk sCached).2 tokCached rfl, ?_⟩
  have h := (C1_token_cache_policy cFresh rd1 extOk sCached).1
  simpa using h

theorem authenticate_success_eq (c : Connector) (setting : String)
    (ext : Externals) (s : St) (h : ext.auth_response.status_code < 400) :
    MpesaB2CConnector.authenticate c setting ext s =
      ({ c with
           authentication_token := some ext.auth_response.access_token,
           expires_in := some ((nowTick s.clock).1 + ext.auth_response.expires_in) },
       { db := save_access_token s.db ext.auth_response.access_token
                 ((nowTick s.clock).1 + ext.auth_response.expires_in)
                 ((nowTick (nowTick s.clock).2).1) setting,
         clock := (nowTick (nowTick s.clock).2).2,
         auth_call_log := s.auth_call_log ++ [(c.app_key, c.app_secret)] },
       .ok { access_token := ext.auth_response.access_token,
             expires_in := (nowTick s.clock).1 + ext.auth_response.expires_in,
             fetched_time := (nowTick (nowTick s.clock).2).1 }) := by
  unfold MpesaB2CConnector.authenticate
  dsimp only
  rw [if_pos h]

/-- C4 (counterexample): with a clock that reads 0 at response parsing and 5
at the fetch-time sampling, the persisted token has `expiry_time = 3600` but
`token_fetch_time = 5`, violating the claimed
`expiry_time = fetch_time + expires_in` (3600 ≠ 5 + 3600): the source computes
the expiry from a first `datetime.now()` call and the fetch time from a
second, later one. -/
theorem C4_counterexample :
    (MpesaB2CConnector.authenticate cFresh "S" extOk s4).2.1.db.access_tokens = [tok4Bad]
    ∧ tok4Bad.expiry_time ≠ tok4Bad.token_fetch_time + 3600 := by
  exact ⟨rfl, by simp [tok4Bad]⟩

/-- C4 (amended): on a token-endpoint response with status < 400, exactly one
new AccessToken is persisted, keyed by the setting, with
`expiry_time = t1 + expires_in` where `t1` is the clock reading taken when the
response is parsed, and `token_fetch_time = t2`, a second and subsequent clock
reading; the call returns {access_token, expires_in (as absolute timestamp),
fetched_time}. The claim's equality `expiry_time = fetch_time + expires_in`
holds exactly when the two readings coincide. -/
theorem C4_authenticate_success (c : Connector) (setting : String)
    (ext : Externals) (s : St) (h : ext.auth_response.status_code < 400) :
    (MpesaB2CConnector.authenticate c setting ext s).2.1.db.access_tokens =
      s.db.access_tokens ++
        [{ access_token := ext.auth_response.access_token,
           expiry_time := (nowTick s.clock).1 + ext.auth_response.expires_in,
           token_fetch_time := (nowTick (nowTick s.clock).2).1,
           associated_settings := setting }]
    ∧ (MpesaB2CConnector.authenticate c setting ext s).2.2 =
        .ok { access_token := ext.auth_response.access_token,
              expires_in := (nowTick s.clock).1 + ext.auth_response.expires_in,
              fetched_time := (nowTick (nowTick s.clock).2).1 }
    ∧ ((nowTick (nowTick s.clock).2).1 = (nowTick s.clock).1 →
        (nowTick s.clock).1 + ext.auth_response.expires_in =
          (nowTick (nowTick s.clock).2).1 + ext.auth_response.expires_in) := by
  rw [authenticate_success_eq c setting ext s h]
  refine ⟨rfl, rfl, fun heq => by rw [heq]⟩

/-- C4 (witness): concrete success runs — on the advancing clock the persisted
token and returned dict match the two distinct readings; on the constant clock
the claimed equality holds. -/
theorem C4_authenticate_success_witness :
    (MpesaB2CConnector.authenticate cFresh "S" extOk s4).2.2 =
      .ok { access_token := "fresh", expires_in := 3600, fetched_time := 5 }
    ∧ (MpesaB2CConnector.authenticate cFresh "S" extOk s4Eq).2.1.db.access_tokens =
      [{ access_token := "fresh", expiry_time := 3607, token_fetch_time := 7,
         associated_settings := "S" }]
    ∧ (7 : Nat) + 3600 = 7 + 3600 := by
  refine ⟨(C4_authenticate_success cFresh "S" extOk s4 (by simp [extOk])).2.1, ?_, ?_⟩
  · exact (C4_authenticate_success cFresh "S" extOk s4Eq (by simp [extOk])).1
  · exact (C4_authenticate_success cFresh "S" extOk s4Eq (by simp [extOk])).2.2 rfl

/-- C7: when the token endpoint answers with status >= 400, `authenticate`
terminates with the authentication error naming the offending setting, no
AccessToken is persisted (the whole store is unchanged), and the connector is
unchanged. -/
theorem C7_authenticate_failure (c : Connector) (setting : String)
    (ext : Externals) (s : St) (h : 400 ≤ ext.auth_response.status_code) :
    (MpesaB2CConnector.authenticate c setting ext s).2.2 =
      .error ("Can't get token with provided Credentials for setting: <b>" ++
        setting ++ "</b>")
    ∧ (MpesaB2CConnector.authenticate c setting ext s).2.1.db = s.db
    ∧ (MpesaB2CConnector.authenticate c setting ext s).1 = c := by
  unfold MpesaB2CConnector.authenticate
  dsimp only
  rw [if_neg (not_lt.mpr h)]
  exact ⟨rfl, rfl, rfl⟩

/-- C7 (witness): a 401 from the token endpoint raises the message naming
setting "MySetting" and leaves the store untouched. -/
theorem C7_authenticate_failure_witness :
    (MpesaB2CConnector.authenticate cFresh "MySetting" ext7 s4).2.2 =
      .error "Can't get token with provided Credentials for setting: <b>MySetting</b>"
    ∧ (MpesaB2CConnector.authenticate cFresh "MySetting" ext7 s4).2.1.db = s4.db := by
  have h := C7_authenticate_failure cFresh "MySetting" ext7 s4 (by simp [ext7])
  exact ⟨h.1, h.2.1⟩

theorem map_overwrite_noop (l : List IntegrationRequest) (n : String)
    (st : ReqStatus) (out err : Option String)
    (h : l.any (fun r => r.name = n) = false) :
    l.map (fun r =>
      if r.name = n then { r with status := st, error := err, output := out } else r) = l := by
  induction l with
  | nil => rfl
  | cons r rest ih =>
    simp only [List.any_cons, Bool.or_eq_false_iff, decide_eq_false_iff_not] at h
    simp only [List.map_cons, if_neg h.1, ih h.2]

theorem submitPayment_success (c : Connector) (rd : B2CRequestDefinition)
    (ext : Externals) (s : St)
    (hc : ext.post_response.connection_error = none)
    (hs : ext.post_response.status_code < 400) :
    submitPayment c rd ext s =
      ({ c with integration_request := some rd.OriginatorConversationID },
       { s with db := { s.db with integration_requests :=
           s.db.integration_requests ++
             [pendingRecord c.base_url rd ext.site_hostname
               (c.authentication_token.getD "None")] } },
       .ok ext.post_response.body) := by
  unfold submitPayment
  dsimp only
  rw [hc]
  dsimp only
  rw [if_neg (not_le.mpr hs)]
  rfl

theorem notify_exc_eval (cB : Connector) (db : DB) (m ir : String)
    (hobs : cB.observers ≠ [])
    (hmem : db.integration_requests.any (fun r => r.name = ir) = true) :
    Connector.notify
      { cB with error := some (ErrValue.exc m), integration_request := some ir } db =
      ({ db with
           error_log := db.error_log ++ [("HTTPError", m)]
           integration_requests := db.integration_requests.map (fun r =>
             if r.name = ir then
               { r with status := ReqStatus.Failed, error := some m, output := none }
             else r) },
       some m) := by
  have h1 : ({ cB with error := some (ErrValue.exc m), integration_request := some ir } : Connector).observers ≠ [] := hobs
  rw [notify_truthy _ db h1 rfl]
  exact errorObserver_update_eq _ db (ErrValue.exc m) ir rfl rfl rfl hmem

/-- Payment submission with a failing POST (connection error or HTTP >= 400):
the caught exception is logged, the freshly created tracking record is
overwritten to Failed with the error text, and the error is raised. -/
theorem submitPayment_failure (c : Connector) (rd : B2CRequestDefinition)
    (ext : Externals) (s : St)
    (hobs : c.observers ≠ [])
    (hfresh : s.db.integration_requests.any
      (fun r => r.name = rd.OriginatorConversationID) = false)
    (hfail : ext.post_response.connection_error.isSome = true ∨
             400 ≤ ext.post_response.status_code) :
    (submitPayment c rd ext s).2.2 = .error (postErrorMessage c ext)
    ∧ (submitPayment c rd ext s).2.1.db.integration_requests =
        s.db.integration_requests ++
          [{ pendingRecord c.base_url rd ext.site_hostname
               (c.authentication_token.getD "None") with
             status := ReqStatus.Failed,
             error := some (postErrorMessage c ext) }]
    ∧ (submitPayment c rd ext s).2.1.db.error_log =
        s.db.error_log ++ [("HTTPError", postErrorMessage c ext)]
    ∧ (submitPayment c rd ext s).2.1.db.access_tokens = s.db.access_tokens := by
  have hmem : ∀ dbPairSnd : DB × String,
      dbPairSnd = create_request_log s.db (c.base_url ++ "/mpesa/b2c/v3/paymentrequest")
        (rd.to_json [("QueueTimeOutURL", callbackUrlOf ext.site_hostname),
          ("ResultURL", callbackUrlOf ext.site_hostname)])
        rd.OriginatorConversationID
        [("Authorization", "Bearer " ++ c.authentication_token.getD "None"),
         ("Content-Type", "application/json")] →
      dbPairSnd.1.integration_requests.any (fun r => r.name = dbPairSnd.2) = true := by
    intro p hp
    rw [hp]
    simp [create_request_log, List.any_append, hfresh]
  cases hc : ext.post_response.connection_error with
  | some m =>
    have hmsg : postErrorMessage c ext = m := by
      unfold postErrorMessage
      rw [hc]
    unfold submitPayment
    dsimp only
    rw [hc]
    dsimp only
    rw [notify_exc_eval c _ m _ hobs (hmem _ rfl)]
    dsimp only
    rw [hmsg]
    refine ⟨rfl, ?_, rfl, rfl⟩
    show (create_request_log s.db _ _ rd.OriginatorConversationID _).1.integration_requests.map _
      = _
    simp only [create_request_log, List.map_append, map_overwrite_noop _ _ _ _ _ hfresh]
    simp [pendingRecord]
  | none =>
    have hst : 400 ≤ ext.post_response.status_code := by
      rcases hfail with h | h
      · rw [hc] at h
        simp at h
      · exact h
    have hmsg : postErrorMessage c ext =
        toString ext.post_response.status_code ++ " Error for url: " ++
          (c.base_url ++ "/mpesa/b2c/v3/paymentrequest") := by
      unfold postErrorMessage
      rw [hc]
    unfold submitPayment
    dsimp only
    rw [hc]
    dsimp only
    rw [if_pos hst]
    rw [notify_exc_eval c _ _ _ hobs (hmem _ rfl)]
    dsimp only
    rw [hmsg]
    refine ⟨rfl, ?_, rfl, rfl⟩
    show (create_request_log s.db _ _ rd.OriginatorConversationID _).1.integration_requests.map _
      = _
    simp only [create_request_log, List.map_append, map_overwrite_noop _ _ _ _ _ hfresh]
    simp [pendingRecord]

/-- C6: when the POST succeeds (no connection error, status < 400),
`make_b2c_payment_request` returns the parsed JSON response body, records the
correlation id in `self.integration_request`, and has created — before the
submission — exactly one IntegrationRequest keyed by
`request_data.OriginatorConversationID` with implicit status Pending, storing
the payment URL, the payload and the Bearer headers (see `pendingRecord`). -/
theorem C6_success_submission (c : Connector) (rd : B2CRequestDefinition)
    (ext : Externals) (s : St)
    (hreach : (lookupValidToken s.db rd.Setting (nowTick s.clock).1).isSome = true ∨
        ext.auth_response.status_code < 400)
    (hc : ext.post_response.connection_error = none)
    (hs : ext.post_response.status_code < 400) :
    (MpesaB2CConnector.make_b2c_payment_request c rd ext s).2.2 =
      .ok ext.post_response.body
    ∧ (MpesaB2CConnector.make_b2c_payment_request c rd ext s).1.integration_request =
        some rd.OriginatorConversationID
    ∧ (MpesaB2CConnector.make_b2c_payment_request c rd ext s).2.1.db.integration_requests =
        s.db.integration_requests ++
          [pendingRecord c.base_url rd ext.site_hostname (tokenUsed s rd ext)] := by
  unfold MpesaB2CConnector.make_b2c_payment_request
  dsimp only
  cases hl : lookupValidToken s.db rd.Setting (nowTick s.clock).1 with
  | some tok =>
    dsimp only
    have ht : tokenUsed s rd ext = tok.access_token := by
      unfold tokenUsed
      rw [hl]
    rw [submitPayment_success _ rd ext _ hc hs]
    refine ⟨rfl, rfl, ?_⟩
    rw [ht]
    rfl
  | none =>
    dsimp only
    have hst : ext.auth_response.status_code < 400 := by
      rcases hreach with h | h
      · rw [hl] at h
        simp at h
      · exact h
    have ht : tokenUsed s rd ext = ext.auth_response.access_token := by
      unfold tokenUsed
      rw [hl]
    rw [authenticate_success_eq _ rd.Setting ext _ hst]
    dsimp only
    rw [submitPayment_success _ rd ext _ hc hs]
    refine ⟨rfl, rfl, ?_⟩
    rw [ht]
    rfl

/-- Empty-store state with a generous clock, for the C6 scenario. -/
def s6 : St :=
  { db := { access_tokens := [], integration_requests := [], error_log := [] },
    clock := [0, 1, 2], auth_call_log := [] }

/-- C6 (witness): the spec scenario — empty token store, auth succeeds,
POST answers 200 with body "ack" — the call returns the body and records the
correlation id. -/
theorem C6_success_submission_witness :
    (MpesaB2CConnector.make_b2c_payment_request cFresh rd1 extOk s6).2.2 =
      .ok "ack"
    ∧ (MpesaB2CConnector.make_b2c_payment_request cFresh rd1 extOk s6).1.integration_request =
      some "OCID1" := by
  have h := C6_success_submission cFresh rd1 extOk s6 (Or.inr (by simp [extOk])) rfl
    (by simp [extOk])
  exact ⟨h.1, h.2.1⟩

/-- C3: for every connection-level or HTTP-level failure of the payment POST
(given the standard observer wiring, a fresh correlation id, and a reachable
submission), `make_b2c_payment_request` terminates by raising the transport
error, the failure is logged, and the tracking record — created Pending —
ends Failed with the error text: no silent swallowing, and the record does not
remain Pending. -/
theorem C3_submission_failure (c : Connector) (rd : B2CRequestDefinition)
    (ext : Externals) (s : St)
    (hobs : c.observers ≠ [])
    (hfresh : s.db.integration_requests.any
      (fun r => r.name = rd.OriginatorConversationID) = false)
    (hreach : (lookupValidToken s.db rd.Setting (nowTick s.clock).1).isSome = true ∨
        ext.auth_response.status_code < 400)
    (hfail : ext.post_response.connection_error.isSome = true ∨
        400 ≤ ext.post_response.status_code) :
    (MpesaB2CConnector.make_b2c_payment_request c rd ext s).2.2 =
      .error (postErrorMessage c ext)
    ∧ (MpesaB2CConnector.make_b2c_payment_request c rd ext s).2.1.db.integration_requests =
        s.db.integration_requests ++
          [{ pendingRecord c.base_url rd ext.site_hostname (tokenUsed s rd ext) with
             status := ReqStatus.Failed,
             error := some (postErrorMessage c ext) }]
    ∧ (MpesaB2CConnector.make_b2c_payment_request c rd ext s).2.1.db.error_log =
        s.db.error_log ++ [("HTTPError", postErrorMessage c ext)] := by
  unfold MpesaB2CConnector.make_b2c_payment_request
  dsimp only
  cases hl : lookupValidToken s.db rd.Setting (nowTick s.clock).1 with
  | some tok =>
    dsimp only
    have ht : tokenUsed s rd ext = tok.access_token := by
      unfold tokenUsed
      rw [hl]
    have h := submitPayment_failure
      { c with authentication_token := some tok.access_token } rd ext
      { s with clock := (nowTick s.clock).2 } hobs hfresh hfail
    refine ⟨h.1, ?_, h.2.2.1⟩
    rw [ht]
    exact h.2.1
  | none =>
    dsimp only
    have hst : ext.auth_response.status_code < 400 := by
      rcases hreach with h | h
      · rw [hl] at h
        simp at h
      · exact h
    have ht : tokenUsed s rd ext = ext.auth_response.access_token := by
      unfold tokenUsed
      rw [hl]
    rw [authenticate_success_eq _ rd.Setting ext _ hst]
    dsimp only
    have h := submitPayment_failure
      { c with
          app_key := some rd.ConsumerKey
          app_secret := some rd.ConsumerSecret
          authentication_token := some ext.auth_response.access_token
          expires_in := some ((nowTick (({ s with clock := (nowTick s.clock).2 } : St)).clock).1 +
            ext.auth_response.expires_in) } rd ext
      { db := save_access_token s.db ext.auth_response.access_token
          ((nowTick (({ s with clock := (nowTick s.clock).2 } : St)).clock).1 +
            ext.auth_response.expires_in)
          ((nowTick (nowTick (({ s with clock := (nowTick s.clock).2 } : St)).clock).2).1)
          rd.Setting,
        clock := (nowTick (nowTick (({ s with clock := (nowTick s.clock).2 } : St)).clock).2).2,
        auth_call_log := s.auth_call_log ++ [(some rd.ConsumerKey, some rd.ConsumerSecret)] }
      hobs hfresh hfail
    refine ⟨h.1, ?_, h.2.2.1⟩
    rw [ht]
    exact h.2.1

/-- C3 (witness): the spec scenario — submission returns HTTP 500: the error
observer fires (one log entry), the record becomes Failed, and the error is
raised to the caller with the HTTPError message. -/
theorem C3_submission_failure_witness :
    (MpesaB2CConnector.make_b2c_payment_request cFresh rd1 ext3 sCached).2.2 =
      .error "500 Error for url: https://sandbox.safaricom.co.ke/mpesa/b2c/v3/paymentrequest"
    ∧ (MpesaB2CConnector.make_b2c_payment_request cFresh rd1 ext3 sCached).2.1.db.error_log =
      [("HTTPError",
        "500 Error for url: https://sandbox.safaricom.co.ke/mpesa/b2c/v3/paymentrequest")] := by
  have h := C3_submission_failure cFresh rd1 ext3 sCached
    (by simp [cFresh, MpesaB2CConnector.init, Connector.attach]) rfl
    (Or.inl rfl) (Or.inr (by norm_num [ext3]))
  exact ⟨h.1, h.2.2⟩

end MpesaB2C
